import Mathlib

/-!
# Smart-Pricing-Buddy: verification of the query-to-ranked-result pipeline

A shallow embedding of the core pipeline of the Smart-Pricing-Buddy backend
(`backend/app`), translated from the Python source:

* `services/ranking.py` — the ranking engine (`rank_results` and the two
  normalisation helpers);
* `agents/deal_agent.py` — the discount engine (`DealFinderAgent.apply_deals`);
* `services/nlp_parser.py` — the rule-based intent parser;
* `agents/food_agent.py`, `agents/ecommerce_agent.py`, `agents/ride_agent.py`,
  `agents/hotel_agent.py` — the category search stages (the pure part after the
  concurrent `asyncio.gather` fan-out, which hands back one response per
  platform adapter: either a list of raw records or an exception);
* `agents/orchestrator.py` + `agents/state.py` — the five-node LangGraph
  pipeline and its state-merge semantics.

Modelling conventions:

* Python floats are modelled as exact rationals (`ℚ`); `round(x, n)` is
  modelled as round-half-to-even at `n` decimal places, matching Python's
  `round` on exactly representable values.
* Python `dict.get(k, d)` on records with a fixed key set is modelled as an
  `Option`-valued structure field with `Option.getD`.
* Python truthiness of an optional number (`if x:`) is `x` being present and
  nonzero; of an optional string, present and nonempty.
* `await asyncio.gather(*tasks, return_exceptions=True)` yields one outcome
  per adapter, in task-spawn order; each outcome is either a result list or an
  exception, modelled as `Except String (List _)`.
-/

/-! ## Rounding (Python `round(x, n)` on exact values) -/

/-- Round a rational to the nearest integer, ties to even (Python `round`). -/
def roundHalfEven (q : ℚ) : ℤ :=
  let f : ℤ := ⌊q⌋
  if q - f < 1/2 then f
  else if 1/2 < q - f then f + 1
  else if f % 2 = 0 then f else f + 1

/-- Python `round(x, 2)`. -/
def round2 (q : ℚ) : ℚ := (roundHalfEven (q * 100) : ℚ) / 100

/-- Python `round(x, 4)`. -/
def round4 (q : ℚ) : ℚ := (roundHalfEven (q * 10000) : ℚ) / 10000

/-! ## Python `min`/`max` over a nonempty list -/

/-- Python `min(xs)` on a nonempty list (`0` is a don't-care default). -/
def pyMin : List ℚ → ℚ
  | [] => 0
  | [x] => x
  | x :: y :: xs => min x (pyMin (y :: xs))

/-- Python `max(xs)` on a nonempty list (`0` is a don't-care default). -/
def pyMax : List ℚ → ℚ
  | [] => 0
  | [x] => x
  | x :: y :: xs => max x (pyMax (y :: xs))

/-! ## Enumerations (`app/models/enums.py`) -/

/-- `Platform` enum. -/
inductive Platform where
  | UBER_EATS | DOORDASH | GRUBHUB | POSTMATES
  | AMAZON | EBAY | WALMART | TARGET | BESTBUY
  | UBER | LYFT | TAXI
  | BOOKING | EXPEDIA | AIRBNB | HOTELS_COM | VRBO
  deriving DecidableEq, Repr

/-- `SearchCategory` enum. -/
inductive SearchCategory where
  | FOOD | PRODUCT | RIDE | HOTEL
  deriving DecidableEq, Repr

/-- `SearchStatus` enum. -/
inductive SearchStatus where
  | PENDING | PROCESSING | COMPLETED | FAILED | PARTIAL
  deriving DecidableEq, Repr

/-- `DealType` enum. -/
inductive DealType where
  | PROMO_CODE | CASHBACK | CREDIT_CARD | SEASONAL | FLASH_SALE | LOYALTY
  deriving DecidableEq, Repr

/-! ## Data model (`app/models/schemas.py`) -/

/-- `PriceBreakdown` (schemas.py). All fields default `0.0` except the two
required ones; we carry them all explicitly. -/
structure PriceBreakdown where
  base_price : ℚ
  delivery_fee : ℚ := 0
  service_fee : ℚ := 0
  tax : ℚ := 0
  tip : ℚ := 0
  discount : ℚ := 0
  total : ℚ
  deriving DecidableEq, Repr

/-- The platform-specific `extra_data` dict: its keys across the four
category agents, as optional fields. -/
structure ExtraData where
  seller : Option String := none
  prime : Bool := false
  delivery_days : Option ℤ := none
  surge_multiplier : Option ℚ := none
  trip_time_min : Option ℤ := none
  eta_min : Option ℤ := none
  nightly_rate : Option ℚ := none
  nights : Option ℤ := none
  cancellation : Option String := none
  amenities : List String := []
  deriving DecidableEq, Repr

/-- `SearchResultItem` (schemas.py). The `id` (random uuid) and `fetched_at`
(wall-clock timestamp) fields are omitted: no pipeline stage reads them. -/
structure SearchResultItem where
  platform : Platform
  item_name : String
  base_price : ℚ
  total_price : ℚ
  currency : String := "USD"
  fees_breakdown : Option PriceBreakdown := none
  delivery_time_min : Option ℤ := none
  rating : Option ℚ := none
  rating_count : Option ℤ := none
  image_url : Option String := none
  deep_link : Option String := none
  extra_data : Option ExtraData := none
  value_score : Option ℚ := none
  rank : Option ℕ := none
  savings_vs_max : Option ℚ := none
  deals_applied : List String := []
  deriving DecidableEq, Repr

/-- `DealRead` (schemas.py). The `id` (random uuid) and validity-window
timestamps are omitted: `apply_deals` never reads them. -/
structure DealRead where
  platform : Platform
  deal_type : DealType
  code : Option String := none
  description : String
  discount_amount : Option ℚ := none
  discount_percent : Option ℚ := none
  min_order : Option ℚ := none
  max_discount : Option ℚ := none
  is_active : Bool := true
  deriving DecidableEq, Repr

/-! ## Ranking engine (`app/services/ranking.py`) -/

/-- `_normalise_min_is_best` — 0 = worst (max), 1 = best (min). -/
def _normalise_min_is_best (value min_val max_val : ℚ) : ℚ :=
  if max_val = min_val then 1 else 1 - (value - min_val) / (max_val - min_val)

/-- `_normalise_max_is_best` — 0 = worst (min), 1 = best (max). -/
def _normalise_max_is_best (value min_val max_val : ℚ) : ℚ :=
  if max_val = min_val then 1 else (value - min_val) / (max_val - min_val)

/-- The `custom_weights` dict of `rank_results` (keys that are read). -/
structure RankWeights where
  price : Option ℚ := none
  time : Option ℚ := none
  rating : Option ℚ := none
  fees : Option ℚ := none
  user_pref : Option ℚ := none
  deriving DecidableEq, Repr

/-- `settings.WEIGHT_PRICE` (config.py). -/
def WEIGHT_PRICE : ℚ := mkRat 40 100
/-- `settings.WEIGHT_TIME` (config.py). -/
def WEIGHT_TIME : ℚ := mkRat 20 100
/-- `settings.WEIGHT_RATING` (config.py). -/
def WEIGHT_RATING : ℚ := mkRat 20 100
/-- `settings.WEIGHT_FEES` (config.py). -/
def WEIGHT_FEES : ℚ := mkRat 10 100
/-- `settings.WEIGHT_USER_PREF` (config.py). -/
def WEIGHT_USER_PREF : ℚ := mkRat 10 100

/-- `(custom_weights or {}).get("price", settings.WEIGHT_PRICE)`. -/
def w_price (cw : Option RankWeights) : ℚ := (cw.bind RankWeights.price).getD WEIGHT_PRICE
/-- `(custom_weights or {}).get("time", settings.WEIGHT_TIME)`. -/
def w_time (cw : Option RankWeights) : ℚ := (cw.bind RankWeights.time).getD WEIGHT_TIME
/-- `(custom_weights or {}).get("rating", settings.WEIGHT_RATING)`. -/
def w_rating (cw : Option RankWeights) : ℚ := (cw.bind RankWeights.rating).getD WEIGHT_RATING
/-- `(custom_weights or {}).get("fees", settings.WEIGHT_FEES)`. -/
def w_fees (cw : Option RankWeights) : ℚ := (cw.bind RankWeights.fees).getD WEIGHT_FEES
/-- `(custom_weights or {}).get("user_pref", settings.WEIGHT_USER_PREF)`. -/
def w_pref (cw : Option RankWeights) : ℚ := (cw.bind RankWeights.user_pref).getD WEIGHT_USER_PREF

/-- `prices = [r.total_price for r in results]`. -/
def pricesOf (results : List SearchResultItem) : List ℚ :=
  results.map SearchResultItem.total_price

/-- `times = [r.delivery_time_min for r in results if r.delivery_time_min is not None]`. -/
def timesOf (results : List SearchResultItem) : List ℚ :=
  results.filterMap (fun r => r.delivery_time_min.map (fun t => (t : ℚ)))

/-- `ratings = [r.rating for r in results if r.rating is not None]`. -/
def ratingsOf (results : List SearchResultItem) : List ℚ :=
  results.filterMap SearchResultItem.rating

/-- The fee of one result: `fees_breakdown.delivery_fee + fees_breakdown.service_fee`
when a breakdown is present, else `0` (ranking.py lines 57-62). -/
def feeOf (r : SearchResultItem) : ℚ :=
  match r.fees_breakdown with
  | some fb => fb.delivery_fee + fb.service_fee
  | none => 0

/-- `fees` list (one entry per result, in order). -/
def feesOf (results : List SearchResultItem) : List ℚ := results.map feeOf

/-- `price_min` (results assumed nonempty by the caller). -/
def priceMin (results : List SearchResultItem) : ℚ := pyMin (pricesOf results)
/-- `price_max`. -/
def priceMax (results : List SearchResultItem) : ℚ := pyMax (pricesOf results)
/-- `time_min` — `(min(times), max(times)) if times else (0, 1)`. -/
def timeMin (results : List SearchResultItem) : ℚ :=
  if timesOf results = [] then 0 else pyMin (timesOf results)
/-- `time_max`. -/
def timeMax (results : List SearchResultItem) : ℚ :=
  if timesOf results = [] then 1 else pyMax (timesOf results)
/-- `rating_min` — `(min(ratings), max(ratings)) if ratings else (0, 5)`. -/
def ratingMin (results : List SearchResultItem) : ℚ :=
  if ratingsOf results = [] then 0 else pyMin (ratingsOf results)
/-- `rating_max`. -/
def ratingMax (results : List SearchResultItem) : ℚ :=
  if ratingsOf results = [] then 5 else pyMax (ratingsOf results)
/-- `fee_min` — `(min(fees), max(fees)) if fees else (0, 1)`. -/
def feeMin (results : List SearchResultItem) : ℚ :=
  if feesOf results = [] then 0 else pyMin (feesOf results)
/-- `fee_max`. -/
def feeMax (results : List SearchResultItem) : ℚ :=
  if feesOf results = [] then 1 else pyMax (feesOf results)
/-- `max_price = max(prices) if prices else 1`. -/
def maxPrice (results : List SearchResultItem) : ℚ :=
  if pricesOf results = [] then 1 else pyMax (pricesOf results)

/-- `t = r.delivery_time_min if r.delivery_time_min is not None else time_max`. -/
def tSubst (results : List SearchResultItem) (r : SearchResultItem) : ℚ :=
  match r.delivery_time_min with
  | some t => (t : ℚ)
  | none => timeMax results

/-- `rt = r.rating if r.rating is not None else rating_min`. -/
def rtSubst (results : List SearchResultItem) (r : SearchResultItem) : ℚ :=
  match r.rating with
  | some v => v
  | none => ratingMin results

/-- `s_price` for one result. -/
def sPrice (results : List SearchResultItem) (r : SearchResultItem) : ℚ :=
  _normalise_min_is_best r.total_price (priceMin results) (priceMax results)

/-- `s_time` for one result. -/
def sTime (results : List SearchResultItem) (r : SearchResultItem) : ℚ :=
  _normalise_min_is_best (tSubst results r) (timeMin results) (timeMax results)

/-- `s_rating` for one result. -/
def sRating (results : List SearchResultItem) (r : SearchResultItem) : ℚ :=
  _normalise_max_is_best (rtSubst results r) (ratingMin results) (ratingMax results)

/-- `s_fees` for one result (`fees[idx]` is exactly `feeOf r` for the result at
index `idx`, as `fees` is built positionally from `results`). -/
def sFees (results : List SearchResultItem) (r : SearchResultItem) : ℚ :=
  _normalise_min_is_best (feeOf r) (feeMin results) (feeMax results)

/-- The weighted `score` of one result (`s_pref` is the fixed placeholder 0.5). -/
def scoreOf (cw : Option RankWeights) (results : List SearchResultItem)
    (r : SearchResultItem) : ℚ :=
  w_price cw * sPrice results r
    + w_time cw * sTime results r
    + w_rating cw * sRating results r
    + w_fees cw * sFees results r
    + w_pref cw * (1/2)

/-- The scoring loop body: set `value_score` and `savings_vs_max` on one result. -/
def scoreAssign (cw : Option RankWeights) (results : List SearchResultItem)
    (r : SearchResultItem) : SearchResultItem :=
  { r with
    value_score := some (round4 (scoreOf cw results r))
    savings_vs_max := some (round2 (maxPrice results - r.total_price)) }

/-- The results list after the scoring loop (in input order). -/
def scoredList (cw : Option RankWeights) (results : List SearchResultItem) :
    List SearchResultItem :=
  results.map (scoreAssign cw results)

/-- Sort key: `r.value_score or 0` (None and 0.0 both give 0). -/
def scoreKey (r : SearchResultItem) : ℚ := r.value_score.getD 0

/-- `a` may precede `b` in the descending sort: the comparison of
`results.sort(key=..., reverse=True)`. -/
def scoreGE (a b : SearchResultItem) : Prop := scoreKey b ≤ scoreKey a

instance : DecidableRel scoreGE :=
  fun a b => inferInstanceAs (Decidable (scoreKey b ≤ scoreKey a))

instance : IsTotal SearchResultItem scoreGE :=
  ⟨fun a b => le_total (scoreKey b) (scoreKey a)⟩

instance : IsTrans SearchResultItem scoreGE :=
  ⟨fun _ _ _ h1 h2 => le_trans h2 h1⟩

/-- `for rank, r in enumerate(results, start=1): r.rank = rank`. -/
def assignRanks : ℕ → List SearchResultItem → List SearchResultItem
  | _, [] => []
  | n, r :: rs => { r with rank := some n } :: assignRanks (n + 1) rs

/-- `rank_results(results, custom_weights)`: score, sort descending by
`value_score` (Python `list.sort` is stable; modelled by the stable
`List.insertionSort`), then assign dense 1-based ranks. Empty input is
returned unchanged. -/
def rank_results (results : List SearchResultItem)
    (custom_weights : Option RankWeights) : List SearchResultItem :=
  if results = [] then results
  else assignRanks 1 (List.insertionSort scoreGE (scoredList custom_weights results))

/-- A result with its (ranking-assigned) `rank` field blanked, for stating
stability of the sort independently of the rank renumbering. -/
def eraseRank (r : SearchResultItem) : SearchResultItem := { r with rank := none }

/-- A result with the three fields written by the ranking engine blanked
(`value_score`, `rank`, `savings_vs_max`); everything the ranking stage must
leave untouched. -/
def clearComputed (r : SearchResultItem) : SearchResultItem :=
  { r with value_score := none, rank := none, savings_vs_max := none }

/-- Sample offer used to instantiate ranking theorems. -/
def oPadThai : SearchResultItem :=
  { platform := .UBER_EATS, item_name := "pad thai", base_price := 10, total_price := 12 }

/-- Sample offer with no delivery time (for the missing-time-range theorems). -/
def oSoup : SearchResultItem :=
  { platform := .DOORDASH, item_name := "soup", base_price := 9, total_price := 11 }

/-- Custom weight set whose sum is not a multiple of 1/10000: `price` carries
all the weight. -/
def cwNarrow : RankWeights :=
  { price := some (mkRat 123456 1000000), time := some 0, rating := some 0, fees := some 0,
    user_pref := some 0 }

/-- Single offer scored under `cwNarrow`. -/
def oUnit : SearchResultItem :=
  { platform := .UBER_EATS, item_name := "x", base_price := 10, total_price := 10 }

/-! ## Discount engine (`app/agents/deal_agent.py`, `apply_deals`) -/

/-- Python truthiness of an optional float (`if x:`): present and nonzero. -/
def truthy (x : Option ℚ) : Bool :=
  match x with
  | none => false
  | some v => decide (v ≠ 0)

/-- `deal_map.get(result.platform, [])`: the deals whose platform matches, in
the order supplied (`setdefault(...).append(...)` keeps insertion order). -/
def platformDeals (deals : List DealRead) (p : Platform) : List DealRead :=
  deals.filter (fun d => decide (d.platform = p))

/-- The body of the inner loop of `apply_deals`: apply one deal to one result.
Skips when `min_order` is truthy and the total is below it; computes the raw
discount from `discount_amount`, else `total_price * (discount_percent / 100)`,
else 0; clamps to a truthy `max_discount`; rounds to 2 decimals; mutates only
when the rounded discount is positive. -/
def rawDiscount (deal : DealRead) (total_price : ℚ) : ℚ :=
  let discount1 : ℚ :=
    if truthy deal.discount_amount then deal.discount_amount.getD 0
    else if truthy deal.discount_percent then
      total_price * (deal.discount_percent.getD 0 / 100)
    else 0
  if truthy deal.max_discount then min discount1 (deal.max_discount.getD 0)
  else discount1

def applyOneDeal (deal : DealRead) (result : SearchResultItem) : SearchResultItem :=
  let skip : Bool :=
    match deal.min_order with
    | none => false
    | some m => decide (m ≠ 0) && decide (result.total_price < m)
  if skip then result
  else
    let discount := round2 (rawDiscount deal result.total_price)
    if 0 < discount then
      let newTotal := round2 (result.total_price - discount)
      let label :=
        deal.description ++
          (match deal.code with
           | some c => " (code: " ++ c ++ ")"
           | none => "")
      { result with
        total_price := newTotal
        deals_applied := result.deals_applied ++ [label]
        fees_breakdown :=
          match result.fees_breakdown with
          | some fb => some { fb with discount := fb.discount + discount, total := newTotal }
          | none => none }
    else result

/-- The per-result outer loop body of `apply_deals`: fold the matching
platform deals, in supplied order, over one result. -/
def applyDealsToResult (deals : List DealRead) (result : SearchResultItem) : SearchResultItem :=
  (platformDeals deals result.platform).foldl (fun r d => applyOneDeal d r) result

/-- `DealFinderAgent.apply_deals(results, deals)` (in-place mutation of each
result, returned for chaining). -/
def apply_deals (results : List SearchResultItem) (deals : List DealRead) :
    List SearchResultItem :=
  results.map (applyDealsToResult deals)

/-- Offer with a fee breakdown in sync and a low total (for the
negative-total counterexample: the repo sample deal RIDE10 takes $10 off with
no minimum order). -/
def oCheap : SearchResultItem :=
  { platform := .UBER, item_name := "short ride", base_price := 5, total_price := 5,
    fees_breakdown := some { base_price := 5, total := 5 } }

/-- The repo sample deal `RIDE10`: `$10 off next ride`, no `min_order`. -/
def dRide10 : DealRead :=
  { platform := .UBER, deal_type := .PROMO_CODE, code := some "RIDE10",
    description := "$10 off next ride", discount_amount := some 10 }

/-- Offer with `total_price = 40` (for the discount-clamp example). -/
def oForty : SearchResultItem :=
  { platform := .UBER_EATS, item_name := "feast", base_price := 36, total_price := 40,
    fees_breakdown :=
      some { base_price := 36, delivery_fee := 2, service_fee := 1, tax := 1, total := 40 } }

/-- The repo sample deal `EAT20OFF`: 20% off, `max_discount = 10`. -/
def dEat20 : DealRead :=
  { platform := .UBER_EATS, deal_type := .PROMO_CODE, code := some "EAT20OFF",
    description := "20% off your first order", discount_percent := some 20,
    max_discount := some 10 }

/-- Offer with `total_price = 20` (below the `DASH5` minimum order), with a
fee breakdown in sync. -/
def oTwenty : SearchResultItem :=
  { platform := .DOORDASH, item_name := "snack", base_price := 20, total_price := 20,
    fees_breakdown := some { base_price := 20, total := 20 } }

/-- The repo sample deal `DASH5`: `$5 off orders over $25` (`min_order = 25`). -/
def dDash5 : DealRead :=
  { platform := .DOORDASH, deal_type := .PROMO_CODE, code := some "DASH5",
    description := "$5 off orders over $25", discount_amount := some 5,
    min_order := some 25 }

/-! ## Intent parser (`app/services/nlp_parser.py`)

The parser's regexes are hand-compiled to matcher functions over `List Char`.
Alternations are tried in the declared order with full fall-through (a failed
alternative falls through to the next, as the regex engine backtracks);
optional groups try the group first and fall back to consuming nothing;
`\s+`/`\s*` consume a maximal whitespace run (every literal that can follow
them starts with a non-whitespace character, so greediness without deeper
backtracking coincides with the regex semantics for these patterns);
`re.IGNORECASE` patterns compare characters after `Char.toLower`. -/

/-- Python `\s` (ASCII): space, tab, newline, carriage return, vertical tab,
form feed. -/
def isPySpace (c : Char) : Bool :=
  c == ' ' || c == '\t' || c == '\n' || c == '\r' || c == '\x0b' || c == '\x0c'

/-- Case-insensitive character comparison. -/
def lowEq (a b : Char) : Bool := a.toLower == b.toLower

/-- Python `str.strip()`. -/
def pyStrip (s : List Char) : List Char :=
  ((s.dropWhile isPySpace).reverse.dropWhile isPySpace).reverse

/-- Drop a case-insensitive literal prefix, returning the rest on success. -/
def dropLitCI : List Char → List Char → Option (List Char)
  | [], s => some s
  | _ :: _, [] => none
  | c :: cs, d :: ds => if lowEq c d then dropLitCI cs ds else none

/-- Drop a case-sensitive literal prefix, returning the rest on success. -/
def dropLitCS : List Char → List Char → Option (List Char)
  | [], s => some s
  | _ :: _, [] => none
  | c :: cs, d :: ds => if c == d then dropLitCS cs ds else none

/-- Case-insensitive literal-prefix test. -/
def isLitPrefixCI (k s : List Char) : Bool := (dropLitCI k s).isSome

/-- Case-sensitive literal-prefix test. -/
def isLitPrefixCS (k s : List Char) : Bool := (dropLitCS k s).isSome

/-- Match `\s+` (greedy): requires one whitespace character, consumes the run. -/
def dropWS1 (s : List Char) : Option (List Char) :=
  match s with
  | c :: cs => if isPySpace c then some (cs.dropWhile isPySpace) else none
  | [] => none

/-- Optional group `(?:lit\s+)?`. -/
def optLitWS (lit : List Char) (s : List Char) : List Char :=
  match (dropLitCI lit s).bind dropWS1 with
  | some t => t
  | none => s

/-- Optional literal `(?:lit)?`. -/
def optLit (lit : List Char) (s : List Char) : List Char :=
  match dropLitCI lit s with
  | some t => t
  | none => s

/-- The apostrophe character (for the `what's` preamble alternative). -/
def apost : Char := Char.ofNat 39

/-- Preamble alternative `find\s+(?:me\s+)?(?:the\s+)?`. -/
def preFind (s : List Char) : Option (List Char) :=
  match (dropLitCI r"find".data s).bind dropWS1 with
  | some t => some (optLitWS r"the".data (optLitWS r"me".data t))
  | none => none

/-- Preamble alternative `search\s+(?:for\s+)?`. -/
def preSearch (s : List Char) : Option (List Char) :=
  match (dropLitCI r"search".data s).bind dropWS1 with
  | some t => some (optLitWS r"for".data t)
  | none => none

/-- Preamble alternative `compare\s+`. -/
def preCompare (s : List Char) : Option (List Char) :=
  (dropLitCI r"compare".data s).bind dropWS1

/-- Preamble alternative `get\s+(?:me\s+)?`. -/
def preGet (s : List Char) : Option (List Char) :=
  match (dropLitCI r"get".data s).bind dropWS1 with
  | some t => some (optLitWS r"me".data t)
  | none => none

/-- Preamble alternative `show\s+(?:me\s+)?`. -/
def preShow (s : List Char) : Option (List Char) :=
  match (dropLitCI r"show".data s).bind dropWS1 with
  | some t => some (optLitWS r"me".data t)
  | none => none

/-- Preamble alternative `i\s+(?:want|need)\s+(?:a\s+)?`. -/
def preIWant (s : List Char) : Option (List Char) :=
  match (dropLitCI r"i".data s).bind dropWS1 with
  | some t =>
    match dropLitCI r"want".data t with
    | some u => (dropWS1 u).map (optLitWS r"a".data)
    | none =>
      match dropLitCI r"need".data t with
      | some u => (dropWS1 u).map (optLitWS r"a".data)
      | none => none
  | none => none

/-- Preamble alternative `what(?:'s| is)\s+the\s+`. -/
def preWhat (s : List Char) : Option (List Char) :=
  match dropLitCI r"what".data s with
  | some t =>
    let t2 : Option (List Char) :=
      match dropLitCI [apost, 's'] t with
      | some u => some u
      | none => dropLitCI [' ', 'i', 's'] t
    match t2.bind dropWS1 with
    | some v => (dropLitCI r"the".data v).bind dropWS1
    | none => none
  | none => none

/-- The anchored preamble regex of `_extract_item` (first `re.sub`):
alternatives in declared order. -/
def tryPreamble (s : List Char) : Option (List Char) :=
  (preFind s) <|> (preSearch s) <|> (preCompare s) <|> (preGet s)
    <|> (preShow s) <|> (preIWant s) <|> (preWhat s)

/-- The trailing-clause keywords of `_extract_item` (second `re.sub`), in
declared order. -/
def suffixKws : List (List Char) :=
  [ r"under".data, r"below".data, r"less than".data, r"within".data, r"in".data,
    r"near".data, r"around".data, r"for".data, r"max".data ]

/-- Does a suffix keyword start here (after the whitespace run)? -/
def kwAtCI (s : List Char) : Bool := suffixKws.any (fun k => isLitPrefixCI k s)

/-- Leftmost cut point of `\s+(?:under|below|less than|within|in|near|around|for|max).*$`:
everything from the first whitespace run followed by a keyword is removed. -/
def cutSuffix : List Char → Option (List Char)
  | [] => none
  | c :: t =>
    if isPySpace c && kwAtCI (t.dropWhile isPySpace) then some []
    else (cutSuffix t).map (fun u => c :: u)

/-- The second `re.sub` of `_extract_item`. -/
def stripSuffixClause (s : List Char) : List Char := (cutSuffix s).getD s

/-- The leading superlatives of `_extract_item` (third `re.sub`), in declared
order. -/
def superlativeKws : List (List Char) :=
  [ r"cheapest".data, r"best".data, r"fastest".data, r"nearest".data,
    r"lowest".data, r"most affordable".data ]

/-- Try `^(?:kw)\s+` for each superlative in order. -/
def trySuperlative : List (List Char) → List Char → Option (List Char)
  | [], _ => none
  | k :: ks, s =>
    match (dropLitCI k s).bind dropWS1 with
    | some t => some t
    | none => trySuperlative ks s

/-- The third `re.sub` of `_extract_item`. -/
def stripSuperlative (s : List Char) : List Char :=
  (trySuperlative superlativeKws s).getD s

/-- The cleaning pipeline of `_extract_item` before the final
`.strip() or query` step. -/
def cleanedItem (query : List Char) : List Char :=
  let c1 := pyStrip ((tryPreamble query).getD query)
  let c2 := stripSuffixClause c1
  let c3 := stripSuperlative c2
  pyStrip c3

/-- `_extract_item(query, category)` (the category argument is unused in the
source body as well). -/
def _extract_item (query : String) (_category : SearchCategory) : String :=
  let c := cleanedItem query.data
  if c.isEmpty then query else String.mk c

/-- `_FOOD_KEYWORDS`. -/
def _FOOD_KEYWORDS : List String :=
  [ "pizza", "burger", "sushi", "tacos", "food", "delivery", "restaurant",
    "eat", "meal", "lunch", "dinner", "breakfast", "wings", "chinese",
    "indian", "thai", "mexican", "italian", "noodles", "rice", "salad",
    "sandwich", "soup", "steak", "chicken", "vegan", "vegetarian",
    "dessert", "coffee", "bubble tea", "fries", "pasta", "ramen" ]

/-- `_PRODUCT_KEYWORDS`. -/
def _PRODUCT_KEYWORDS : List String :=
  [ "buy", "product", "price", "laptop", "phone", "headphones", "tv",
    "camera", "tablet", "monitor", "keyboard", "mouse", "watch",
    "shoes", "clothing", "book", "electronics", "appliance", "gadget",
    "deal", "purchase", "shop", "compare", "cheapest" ]

/-- `_RIDE_KEYWORDS`. -/
def _RIDE_KEYWORDS : List String :=
  [ "ride", "uber", "lyft", "taxi", "cab", "drive", "airport",
    "transport", "pickup", "drop", "commute", "carpool" ]

/-- `_HOTEL_KEYWORDS`. -/
def _HOTEL_KEYWORDS : List String :=
  [ "hotel", "motel", "resort", "airbnb", "vrbo", "stay", "accommodation",
    "booking", "lodge", "hostel", "room", "suite", "night", "check-in",
    "vacation", "rental", "bed and breakfast" ]

/-- Case-sensitive prefix at head used by substring search. -/
def isLitPrefixAt : List Char → List Char → Bool
  | [], _ => true
  | _ :: _, [] => false
  | c :: cs, d :: ds => c == d && isLitPrefixAt cs ds

/-- Python `needle in hay` (substring containment). -/
def occursIn (needle : List Char) : List Char → Bool
  | [] => needle.isEmpty
  | d :: t => isLitPrefixAt needle (d :: t) || occursIn needle t

/-- `sum(1 for kw in kws if kw in query_lower)`. -/
def categoryScore (kws : List String) (q_lower : List Char) : ℕ :=
  kws.countP (fun k => occursIn k.data q_lower)

/-- `_detect_category(query_lower)`: argmax over the four keyword scores, the
first maximum (in dict insertion order food, product, ride, hotel) winning,
with the default `PRODUCT` when every score is zero. -/
def _detect_category (q_lower : List Char) : SearchCategory :=
  let sF := categoryScore _FOOD_KEYWORDS q_lower
  let sP := categoryScore _PRODUCT_KEYWORDS q_lower
  let sR := categoryScore _RIDE_KEYWORDS q_lower
  let sH := categoryScore _HOTEL_KEYWORDS q_lower
  let b1 : SearchCategory × ℕ := (SearchCategory.FOOD, sF)
  let b2 : SearchCategory × ℕ := if sP > b1.2 then (SearchCategory.PRODUCT, sP) else b1
  let b3 : SearchCategory × ℕ := if sR > b2.2 then (SearchCategory.RIDE, sR) else b2
  let b4 : SearchCategory × ℕ := if sH > b3.2 then (SearchCategory.HOTEL, sH) else b3
  if b4.2 = 0 then SearchCategory.PRODUCT else b4.1

/-- Value of a digit character. -/
def digitsToNat (ds : List Char) : ℕ :=
  ds.foldl (fun n c => 10 * n + (c.toNat - 48)) 0

/-- Match `(\d+(?:\.\d+)?)` at the head, returning the parsed value (as an
exact rational) and the rest. -/
def matchNumber (s : List Char) : Option (ℚ × List Char) :=
  let ds := s.takeWhile Char.isDigit
  let rest := s.dropWhile Char.isDigit
  if ds.isEmpty then none
  else
    match rest with
    | '.' :: t =>
      let fs := t.takeWhile Char.isDigit
      if fs.isEmpty then some (mkRat (digitsToNat ds) 1, rest)
      else some (mkRat (digitsToNat (ds ++ fs)) (10 ^ fs.length), t.dropWhile Char.isDigit)
    | _ => some (mkRat (digitsToNat ds) 1, rest)

/-- Match `\$?(\d+(?:\.\d+)?)` at the head, returning the captured number. -/
def matchDollarNum (s : List Char) : Option ℚ :=
  let s2 := match s with
    | c :: t => if c == '$' then t else c :: t
    | [] => []
  (matchNumber s2).map Prod.fst

/-- Try a matcher at every position, leftmost success first (`re.search`). -/
def searchPos {α : Type} (f : List Char → Option α) : List Char → Option α
  | [] => f []
  | c :: t =>
    match f (c :: t) with
    | some v => some v
    | none => searchPos f t

/-- Budget pattern `under\s+\$?(\d+(?:\.\d+)?)` at a position. -/
def budgetUnderAt (s : List Char) : Option ℚ :=
  ((dropLitCI r"under".data s).bind dropWS1).bind matchDollarNum

/-- Budget pattern `below\s+\$?(\d+(?:\.\d+)?)` at a position. -/
def budgetBelowAt (s : List Char) : Option ℚ :=
  ((dropLitCI r"below".data s).bind dropWS1).bind matchDollarNum

/-- Budget pattern `less\s+than\s+\$?(\d+(?:\.\d+)?)` at a position. -/
def budgetLessThanAt (s : List Char) : Option ℚ :=
  ((((dropLitCI r"less".data s).bind dropWS1).bind
    (dropLitCI r"than".data)).bind dropWS1).bind matchDollarNum

/-- Budget pattern `max(?:imum)?\s+\$?(\d+(?:\.\d+)?)` at a position. -/
def budgetMaxAt (s : List Char) : Option ℚ :=
  (((dropLitCI r"max".data s).map (optLit r"imum".data)).bind dropWS1).bind matchDollarNum

/-- Budget pattern `budget\s+(?:of\s+)?\$?(\d+(?:\.\d+)?)` at a position. -/
def budgetBudgetAt (s : List Char) : Option ℚ :=
  (((dropLitCI r"budget".data s).bind dropWS1).map (optLitWS r"of".data)).bind matchDollarNum

/-- Budget pattern `\$(\d+(?:\.\d+)?)\s*(?:max|limit|budget)` at a position. -/
def budgetDollarSuffixAt (s : List Char) : Option ℚ :=
  match s with
  | '$' :: t =>
    match matchNumber t with
    | some (v, rest) =>
      let rest2 := rest.dropWhile isPySpace
      if isLitPrefixCI r"max".data rest2 || isLitPrefixCI r"limit".data rest2
          || isLitPrefixCI r"budget".data rest2 then some v
      else none
    | none => none
  | _ => none

/-- Budget pattern `up\s+to\s+\$?(\d+(?:\.\d+)?)` at a position. -/
def budgetUpToAt (s : List Char) : Option ℚ :=
  ((((dropLitCI r"up".data s).bind dropWS1).bind
    (dropLitCI r"to".data)).bind dropWS1).bind matchDollarNum

/-- `_extract_budget(query)`: the `_BUDGET_PATTERNS` in declared priority
order, first matching pattern (leftmost occurrence) wins. -/
def _extract_budget (query : String) : Option ℚ :=
  (searchPos budgetUnderAt query.data)
    <|> (searchPos budgetBelowAt query.data)
    <|> (searchPos budgetLessThanAt query.data)
    <|> (searchPos budgetMaxAt query.data)
    <|> (searchPos budgetBudgetAt query.data)
    <|> (searchPos budgetDollarSuffixAt query.data)
    <|> (searchPos budgetUpToAt query.data)

/-- Tail `(\d+)\s*(?:min(?:ute)?s?)` of the time patterns at a position,
returning the captured digit run (both trailing groups are optional, so the
pattern succeeds as soon as `min` matches). -/
def timeTail (s : List Char) : Option (List Char) :=
  let ds := s.takeWhile Char.isDigit
  if ds.isEmpty then none
  else
    let rest := (s.dropWhile Char.isDigit).dropWhile isPySpace
    match dropLitCI r"min".data rest with
    | some _ => some ds
    | none => none

/-- One full time pattern `kw\s+(\d+)\s*(?:min(?:ute)?s?)` at a position. -/
def timePatAt (kw : List Char) (s : List Char) : Option (List Char) :=
  ((dropLitCI kw s).bind dropWS1).bind timeTail

/-- `_extract_time(query)`: `within`, `in`, `under` patterns in order; the
result is rendered as `"<N> minutes"`. -/
def _extract_time (query : String) : Option String :=
  ((searchPos (timePatAt r"within".data) query.data)
      <|> (searchPos (timePatAt r"in".data) query.data)
      <|> (searchPos (timePatAt r"under".data) query.data)).map
    (fun ds => String.mk ds ++ " minutes")

/-- The prepositions of the location patterns (case-sensitive, declared
order). -/
def prepKws : List (List Char) :=
  [ r"in".data, r"near".data, r"around".data, r"to".data, r"from".data, r"at".data ]

/-- The phrase-terminating stop words of the location patterns. -/
def stopKws : List (List Char) :=
  [ r"for".data, r"under".data, r"within".data, r"below".data, r"max".data,
    r"this".data, r"next".data ]

/-- `(?:\s+(?:for|under|within|below|max|this|next)|$)`: end of string, or a
whitespace run followed by a stop word. -/
def stopOrEnd (s : List Char) : Bool :=
  match s with
  | [] => true
  | c :: t =>
    isPySpace c && stopKws.any (fun k => isLitPrefixCS k ((c :: t).dropWhile isPySpace))

/-- `[A-Z]`. -/
def isUpperAZ (c : Char) : Bool := 'A' ≤ c && c ≤ 'Z'

/-- `[a-zA-Z\s]`. -/
def isPhraseChar (c : Char) : Bool :=
  ('a' ≤ c && c ≤ 'z') || ('A' ≤ c && c ≤ 'Z') || isPySpace c

/-- Lazily grow the captured phrase (`+?`): accept at the first position where
the terminator matches, else extend by one phrase character. -/
def growPhrase (racc : List Char) : List Char → Option (List Char × List Char)
  | [] => if stopOrEnd [] then some (racc.reverse, []) else none
  | c :: t =>
    if stopOrEnd (c :: t) then some (racc.reverse, c :: t)
    else if isPhraseChar c then growPhrase (c :: racc) t
    else none

/-- Capture `([A-Z][a-zA-Z\s]+?)` followed by the terminator. -/
def locPhrase1 (s : List Char) : Option (List Char) :=
  match s with
  | c :: d :: u =>
    if isUpperAZ c && isPhraseChar d then (growPhrase [d, c] u).map Prod.fst
    else none
  | _ => none

/-- Capture `([a-zA-Z\s]+?)` followed by the terminator. -/
def locPhrase2 (s : List Char) : Option (List Char) :=
  match s with
  | c :: u => if isPhraseChar c then (growPhrase [c] u).map Prod.fst else none
  | [] => none

/-- First location pattern at a position: preposition alternatives in order,
each with full fall-through on later failure. -/
def locPat1At (s : List Char) : Option (List Char) :=
  prepKws.foldr
    (fun k acc =>
      match ((dropLitCS k s).bind dropWS1).bind locPhrase1 with
      | some cap => some cap
      | none => acc)
    none

/-- Second location pattern (`the`-variant) at a position. -/
def locPat2At (s : List Char) : Option (List Char) :=
  prepKws.foldr
    (fun k acc =>
      match ((((dropLitCS k s).bind dropWS1).bind
          (dropLitCS r"the".data)).bind dropWS1).bind locPhrase2 with
      | some cap => some cap
      | none => acc)
    none

/-- `_extract_location(query)`: first pattern over the whole string, then the
second; the captured group is stripped. -/
def _extract_location (query : String) : Option String :=
  match searchPos locPat1At query.data with
  | some cap => some (String.mk (pyStrip cap))
  | none =>
    match searchPos locPat2At query.data with
    | some cap => some (String.mk (pyStrip cap))
    | none => none

/-- The filter dict keys read anywhere downstream of parsing. -/
structure Filters where
  budget_max : Option ℚ := none
  time_constraint : Option String := none
  location : Option String := none
  platforms : Option (List String) := none
  origin : Option String := none
  destination : Option String := none
  nights : Option ℤ := none
  deriving DecidableEq, Repr

/-- `ParsedIntent` (schemas.py). -/
structure ParsedIntent where
  category : SearchCategory
  item : String
  filters : Filters
  location : Option String := none
  time_constraint : Option String := none
  budget : Option ℚ := none
  deriving DecidableEq, Repr

/-- `parse_user_query(query)`: category from the lower-cased stripped query,
item/budget/time/location from the original; `filters` collects a truthy
budget as `budget_max` and a truthy time constraint. -/
def parse_user_query (query : String) : ParsedIntent :=
  let q_lower := pyStrip (query.data.map Char.toLower)
  let category := _detect_category q_lower
  let item := _extract_item query category
  let budget := _extract_budget query
  let time_constraint := _extract_time query
  let location := _extract_location query
  let filters : Filters :=
    { budget_max :=
        match budget with
        | some b => if b ≠ 0 then some b else none
        | none => none
      time_constraint :=
        match time_constraint with
        | some t => if t ≠ "" then some t else none
        | none => none }
  { category := category, item := item, filters := filters, location := location,
    time_constraint := time_constraint, budget := budget }

/-! ## Category search stages (`food_agent.py`, `ecommerce_agent.py`,
`ride_agent.py`, `hotel_agent.py`)

The simulated platform adapters draw random prices, so each `search` method is
modelled from its pure part: it takes the outcome of
`await asyncio.gather(*tasks, return_exceptions=True)` — one entry per
selected platform searcher, in task-spawn order, each either a raw-record
list or a raised exception — and normalises/filters exactly as the source
does. -/

/-- `isinstance(resp, list)`: keep a gathered response only when it is a
result list (exceptions are dropped silently). -/
def okList {α : Type} : Except String (List α) → Option (List α)
  | .ok l => some l
  | .error _ => none

/-- Raw dict produced by the food platform searchers. -/
structure RawFood where
  platform : Platform
  name : String
  base_price : ℚ
  delivery_fee : Option ℚ := none
  service_fee : Option ℚ := none
  tax : Option ℚ := none
  delivery_time : Option ℤ := none
  rating : Option ℚ := none
  rating_count : Option ℤ := none
  image : Option String := none
  link : Option String := none
  deriving DecidableEq, Repr

/-- `FoodDeliveryAgent._normalise(raw, filters)` (the filters argument is
unused in the source body as well). -/
def foodNormalise (raw : RawFood) (_filters : Filters) : SearchResultItem :=
  let base := raw.base_price
  let delivery := raw.delivery_fee.getD 0
  let service := raw.service_fee.getD 0
  let tax := raw.tax.getD 0
  let total := round2 (base + delivery + service + tax)
  { platform := raw.platform, item_name := raw.name, base_price := base,
    total_price := total,
    fees_breakdown := some
      { base_price := base, delivery_fee := delivery, service_fee := service,
        tax := tax, total := total },
    delivery_time_min := raw.delivery_time, rating := raw.rating,
    rating_count := raw.rating_count, image_url := raw.image,
    deep_link := raw.link }

/-- `FoodDeliveryAgent.search` after the gather: list responses are collected
in order, exceptions contribute nothing, every raw record is normalised.
There is no budget filter in this agent. -/
def foodSearch (responses : List (Except String (List RawFood))) (filters : Filters) :
    List SearchResultItem :=
  let raw_results := (responses.filterMap okList).flatten
  raw_results.map (fun r => foodNormalise r filters)

/-- Raw dict produced by the e-commerce platform searchers. -/
structure RawProduct where
  platform : Platform
  name : String
  price : ℚ
  shipping : Option ℚ := none
  tax : Option ℚ := none
  rating : Option ℚ := none
  rating_count : Option ℤ := none
  delivery_days : Option ℤ := none
  image : Option String := none
  link : Option String := none
  seller : Option String := none
  prime : Bool := false
  deriving DecidableEq, Repr

/-- `ECommerceAgent._normalise(raw)`. The delivery time is
`delivery_days * 24 * 60` when `delivery_days` is truthy, else `None`. -/
def ecommerceNormalise (raw : RawProduct) : SearchResultItem :=
  let price := raw.price
  let shipping := raw.shipping.getD 0
  let tax := raw.tax.getD 0
  let total := round2 (price + shipping + tax)
  { platform := raw.platform, item_name := raw.name, base_price := price,
    total_price := total,
    fees_breakdown := some
      { base_price := price, delivery_fee := shipping, tax := tax, total := total },
    delivery_time_min :=
      match raw.delivery_days with
      | some d => if d ≠ 0 then some (d * 24 * 60) else none
      | none => none,
    rating := raw.rating, rating_count := raw.rating_count,
    image_url := raw.image, deep_link := raw.link,
    extra_data := some
      { seller := raw.seller, prime := raw.prime, delivery_days := raw.delivery_days } }

/-- `ECommerceAgent.search` after the gather: normalise, then drop offers
whose `total_price` exceeds a truthy `budget_max`. -/
def ecommerceSearch (responses : List (Except String (List RawProduct)))
    (filters : Filters) : List SearchResultItem :=
  let results := ((responses.filterMap okList).flatten).map ecommerceNormalise
  match filters.budget_max with
  | some b => if b ≠ 0 then results.filter (fun r => decide (r.total_price ≤ b)) else results
  | none => results

/-- Raw dict produced by the ride platform searchers. -/
structure RawRide where
  platform : Platform
  name : String
  base_fare : ℚ
  booking_fee : Option ℚ := none
  surge_multiplier : Option ℚ := none
  tax : Option ℚ := none
  eta_min : Option ℤ := none
  trip_time_min : Option ℤ := none
  rating : Option ℚ := none
  link : Option String := none
  deriving DecidableEq, Repr

/-- `RideSharingAgent._normalise(raw)`. -/
def rideNormalise (raw : RawRide) : SearchResultItem :=
  let base := raw.base_fare
  let booking := raw.booking_fee.getD 0
  let tax := raw.tax.getD 0
  let total := round2 (base + booking + tax)
  { platform := raw.platform, item_name := raw.name, base_price := base,
    total_price := total,
    fees_breakdown := some
      { base_price := base, service_fee := booking, tax := tax, total := total },
    delivery_time_min := raw.eta_min, rating := raw.rating,
    deep_link := raw.link,
    extra_data := some
      { surge_multiplier := raw.surge_multiplier, trip_time_min := raw.trip_time_min,
        eta_min := raw.eta_min } }

/-- `RideSharingAgent.search` after the gather: normalise only — this agent
has no budget filter either. -/
def rideSearch (responses : List (Except String (List RawRide)))
    (_filters : Filters) : List SearchResultItem :=
  ((responses.filterMap okList).flatten).map rideNormalise

/-- Raw dict produced by the hotel platform searchers. -/
structure RawHotel where
  platform : Platform
  name : String
  nightly_rate : ℚ
  nights : Option ℤ := none
  tax : Option ℚ := none
  resort_fee : Option ℚ := none
  service_fee : Option ℚ := none
  total : Option ℚ := none
  rating : Option ℚ := none
  rating_count : Option ℤ := none
  cancellation : Option String := none
  amenities : List String := []
  image : Option String := none
  link : Option String := none
  deriving DecidableEq, Repr

/-- `HotelAgent._normalise(raw)`: the raw `total` wins when present, else the
recomputed rounded sum. -/
def hotelNormalise (raw : RawHotel) : SearchResultItem :=
  let nightly := raw.nightly_rate
  let nights := raw.nights.getD 1
  let tax := raw.tax.getD 0
  let resort := raw.resort_fee.getD 0
  let service := raw.service_fee.getD 0
  let total := raw.total.getD (round2 (nightly * (nights : ℚ) + tax + resort + service))
  { platform := raw.platform, item_name := raw.name, base_price := nightly,
    total_price := total,
    fees_breakdown := some
      { base_price := round2 (nightly * (nights : ℚ)), service_fee := resort + service,
        tax := tax, total := total },
    rating := raw.rating, rating_count := raw.rating_count,
    image_url := raw.image, deep_link := raw.link,
    extra_data := some
      { nightly_rate := some nightly, nights := some nights,
        cancellation := raw.cancellation, amenities := raw.amenities } }

/-- `HotelAgent.search` after the gather: normalise, then the same truthy
budget filter as the e-commerce agent. -/
def hotelSearch (responses : List (Except String (List RawHotel)))
    (filters : Filters) : List SearchResultItem :=
  let results := ((responses.filterMap okList).flatten).map hotelNormalise
  match filters.budget_max with
  | some b => if b ≠ 0 then results.filter (fun r => decide (r.total_price ≤ b)) else results
  | none => results

/-! ## Orchestrator pipeline (`orchestrator.py` + `state.py`)

The LangGraph workflow is sequential: parse_intent → get_preferences →
search → find_deals → apply_deals_and_rank. Node updates merge into the
state: `results`, `deals` and `errors` are `operator.add` (append) channels,
every other key overwrites. The two awaited collaborators that can fail —
`agent.search` and `deal_agent.find_deals` — are abstracted as
environment-supplied outcomes (the agents' internals are randomised);
`get_preferences` cannot fail in the source (a dict lookup with a default).
The nodes of this model are total, so the defensive `except` branch of
`execute_search` (status `FAILED` on an escaped exception) is unreachable in
the model and only the normal path is embedded. -/

/-- The user-preferences dict: the single key read downstream. An absent
value models a falsy (empty) dict. -/
structure UserPrefs where
  ranking_weights : Option RankWeights := none
  deriving DecidableEq, Repr

/-- Python truthiness of an optional string. -/
def strTruthy (s : Option String) : Bool :=
  match s with
  | some v => decide (v ≠ "")
  | none => false

/-- `AgentState` (state.py), restricted to the fields the five nodes read or
write (`session_id`, timestamps and the LLM message log are never read). -/
structure AgentState where
  query : String
  user_id : Option String := none
  intent : Option ParsedIntent := none
  category : Option SearchCategory := none
  filters : Filters := {}
  location : Option String := none
  budget_max : Option ℚ := none
  platforms : Option (List String) := none
  user_preferences : Option UserPrefs := none
  results : List SearchResultItem := []
  deals : List DealRead := []
  ranked_results : List SearchResultItem := []
  status : SearchStatus := .PENDING
  errors : List String := []

/-- `create_initial_state(...)` (state.py). -/
def create_initial_state (query : String) (user_id : Option String)
    (filters : Option Filters) (location : Option String)
    (budget_max : Option ℚ) (platforms : Option (List String)) : AgentState :=
  { query := query, user_id := user_id, filters := filters.getD {},
    location := location, budget_max := budget_max, platforms := platforms }

/-- The environment of one pipeline run: outcomes of the awaited external
calls (an exception raised inside a call becomes `.error`). -/
structure PipelineEnv where
  prefs : UserPrefs := {}
  searchOutcome : String → Filters → Except String (List SearchResultItem) :=
    fun _ _ => .ok []
  dealsOutcome : SearchCategory → Filters → Except String (List DealRead) :=
    fun _ _ => .ok []

/-- `parse_intent_node`. -/
def parse_intent_node (st : AgentState) : AgentState :=
  let intent := parse_user_query st.query
  { st with
    intent := some intent, category := some intent.category,
    status := .PROCESSING }

/-- `get_user_preferences_node`: preferences are fetched only when a
`user_id` is present; otherwise the update is the empty (falsy) dict. -/
def get_user_preferences_node (env : PipelineEnv) (st : AgentState) : AgentState :=
  match st.user_id with
  | some _ => { st with user_preferences := some env.prefs }
  | none => { st with user_preferences := none }

/-- The merged-filters computation of `search_node`:
`{**intent.filters, **state.filters}` (state wins per key), then truthy
`budget_max`, `location or intent.location`, truthy `platforms` overrides. -/
def merged_filters (st : AgentState) (intent : ParsedIntent) : Filters :=
  let m0 : Filters :=
    { budget_max := st.filters.budget_max <|> intent.filters.budget_max
      time_constraint := st.filters.time_constraint <|> intent.filters.time_constraint
      location := st.filters.location <|> intent.filters.location
      platforms := st.filters.platforms <|> intent.filters.platforms
      origin := st.filters.origin <|> intent.filters.origin
      destination := st.filters.destination <|> intent.filters.destination
      nights := st.filters.nights <|> intent.filters.nights }
  let m1 := if truthy st.budget_max then { m0 with budget_max := st.budget_max } else m0
  let locOr : Option String :=
    if strTruthy st.location then st.location else intent.location
  let m2 := if strTruthy locOr then { m1 with location := locOr } else m1
  match st.platforms with
  | some ps => if ps ≠ [] then { m2 with platforms := some ps } else m2
  | none => m2

/-- `search_node`: a missing category or intent records one error; otherwise
the category agent is called (every enum category has a registered agent, so
the `Unknown category` branch is unreachable) and a raised exception becomes
one recorded `Search failed: ...` message, while a normal return appends the
offers to the `results` channel. -/
def search_node (env : PipelineEnv) (st : AgentState) : AgentState :=
  match st.category, st.intent with
  | some _, some intent =>
    match env.searchOutcome intent.item (merged_filters st intent) with
    | .ok rs => { st with results := st.results ++ rs }
    | .error e => { st with errors := st.errors ++ ["Search failed: " ++ e] }
  | _, _ => { st with errors := st.errors ++ ["Failed to parse intent"] }

/-- `find_deals_node`: no category appends nothing; a raised exception
becomes one recorded `Deal search failed: ...` message. The deal lookup
receives `state.filters`, not the merged filters. -/
def find_deals_node (env : PipelineEnv) (st : AgentState) : AgentState :=
  match st.category with
  | none => st
  | some c =>
    match env.dealsOutcome c st.filters with
    | .ok ds => { st with deals := st.deals ++ ds }
    | .error e => { st with errors := st.errors ++ ["Deal search failed: " ++ e] }

/-- `apply_deals_and_rank_node`: apply deals when any were found, rank,
truncate to the top 10, and set status `COMPLETED` — unconditionally. -/
def apply_deals_and_rank_node (st : AgentState) : AgentState :=
  let results := st.results
  let deals := st.deals
  let results2 := if deals.isEmpty then results else apply_deals results deals
  let weights : Option RankWeights :=
    match st.user_preferences with
    | some p => p.ranking_weights
    | none => none
  let ranked := rank_results results2 weights
  { st with ranked_results := ranked.take 10, status := .COMPLETED }

/-- One run of the compiled LangGraph workflow (sequential edges). -/
def run_pipeline (env : PipelineEnv) (st : AgentState) : AgentState :=
  apply_deals_and_rank_node
    (find_deals_node env
      (search_node env
        (get_user_preferences_node env
          (parse_intent_node st))))

/-- `SearchResponse` (schemas.py), restricted to the fields
`execute_search` computes from the final state (`session_id` and the timing
are a random uuid and a wall clock). -/
structure SearchResponse where
  query : String
  category : SearchCategory
  status : SearchStatus
  result_count : ℕ
  results : List SearchResultItem
  deals_found : List DealRead

/-- `OrchestratorAgent.execute_search` (normal path): run the workflow and
read the response fields off the final state. -/
def execute_search (env : PipelineEnv) (query : String) (user_id : Option String)
    (filters : Option Filters) (location : Option String)
    (budget_max : Option ℚ) (platforms : Option (List String)) : SearchResponse :=
  let final := run_pipeline env
    (create_initial_state query user_id filters location budget_max platforms)
  { query := query,
    category := final.category.getD SearchCategory.PRODUCT,
    status := final.status,
    result_count := final.ranked_results.length,
    results := final.ranked_results,
    deals_found := final.deals }

/-- A raw food record whose normalised total (20) exceeds the budget 15. -/
def rawPricySushi : RawFood :=
  { platform := .UBER_EATS, name := "sushi platter", base_price := 20 }

/-- A raw ride record whose normalised total (18) exceeds the budget 15. -/
def rawPricyRide : RawRide :=
  { platform := .UBER, name := "UberX", base_fare := 18 }

/-- A raw product record whose normalised total (10) fits the budget 15. -/
def rawBook : RawProduct := { platform := .AMAZON, name := "book", price := 10 }

/-- A filter set with `budget_max = 15`. -/
def filtersB15 : Filters := { budget_max := some 15 }

/-- A pipeline state that has passed intent parsing (for the search-stage
theorems). -/
def stParsed : AgentState :=
  { query := "sushi", category := some .FOOD,
    intent := some { category := .FOOD, item := "sushi", filters := ({} : Filters) } }

/-! ############################################################
    ## Theorems
    ############################################################ -/

/-! ### Rounding facts -/

theorem roundHalfEven_nonneg {q : ℚ} (h : 0 ≤ q) : 0 ≤ roundHalfEven q := by
  unfold roundHalfEven
  have hf : (0 : ℤ) ≤ ⌊q⌋ := Int.floor_nonneg.mpr h
  dsimp only
  split
  · exact hf
  · split
    · omega
    · split <;> omega

theorem roundHalfEven_le (q : ℚ) : (roundHalfEven q : ℚ) ≤ q + 1/2 := by
  unfold roundHalfEven
  have h1 : (⌊q⌋ : ℚ) ≤ q := Int.floor_le q
  dsimp only
  split
  · linarith
  · rename_i h
    push_neg at h
    split
    · push_cast
      linarith
    · rename_i h2
      push_neg at h2
      have : q - (⌊q⌋ : ℚ) = 1/2 := le_antisymm h2 h
      split <;> push_cast <;> linarith

theorem round4_nonneg {q : ℚ} (h : 0 ≤ q) : 0 ≤ round4 q := by
  unfold round4
  have := roundHalfEven_nonneg (q := q * 10000) (by positivity)
  positivity

theorem round4_le (q : ℚ) : round4 q ≤ q + 1/20000 := by
  unfold round4
  have h := roundHalfEven_le (q * 10000)
  rw [div_le_iff₀ (by norm_num : (0:ℚ) < 10000)]
  linarith

/-! ### `pyMin`/`pyMax` facts -/

theorem pyMin_le_of_mem : ∀ {l : List ℚ} {a : ℚ}, a ∈ l → pyMin l ≤ a
  | [x], a, h => by
    simp only [List.mem_singleton] at h
    simp [pyMin, h]
  | x :: y :: xs, a, h => by
    rcases List.mem_cons.mp h with rfl | h2
    · exact min_le_left _ _
    · exact le_trans (min_le_right _ _) (pyMin_le_of_mem h2)

theorem le_pyMax_of_mem : ∀ {l : List ℚ} {a : ℚ}, a ∈ l → a ≤ pyMax l
  | [x], a, h => by
    simp only [List.mem_singleton] at h
    simp [pyMax, h]
  | x :: y :: xs, a, h => by
    rcases List.mem_cons.mp h with rfl | h2
    · exact le_max_left _ _
    · exact le_trans (le_pyMax_of_mem h2) (le_max_right _ _)

theorem pyMin_le_pyMax {l : List ℚ} (h : l ≠ []) : pyMin l ≤ pyMax l := by
  match l, h with
  | x :: xs, _ =>
    exact le_trans (pyMin_le_of_mem (List.mem_cons_self x xs))
      (le_pyMax_of_mem (List.mem_cons_self x xs))

/-! ### Normalisation bounds -/

theorem normMin_unit {v lo hi : ℚ} (h1 : lo ≤ v) (h2 : v ≤ hi) :
    0 ≤ _normalise_min_is_best v lo hi ∧ _normalise_min_is_best v lo hi ≤ 1 := by
  unfold _normalise_min_is_best
  split
  · norm_num
  · rename_i hne
    have hlt : lo < hi := lt_of_le_of_ne (h1.trans h2) (fun e => hne e.symm)
    constructor
    · have hd : (v - lo)/(hi - lo) ≤ 1 := by
        rw [div_le_one (by linarith)]
        linarith
      linarith
    · have hd : 0 ≤ (v - lo)/(hi - lo) := div_nonneg (by linarith) (by linarith)
      linarith

theorem normMax_unit {v lo hi : ℚ} (h1 : lo ≤ v) (h2 : v ≤ hi) :
    0 ≤ _normalise_max_is_best v lo hi ∧ _normalise_max_is_best v lo hi ≤ 1 := by
  unfold _normalise_max_is_best
  split
  · norm_num
  · rename_i hne
    have hlt : lo < hi := lt_of_le_of_ne (h1.trans h2) (fun e => hne e.symm)
    constructor
    · exact div_nonneg (by linarith) (by linarith)
    · rw [div_le_one (by linarith)]
      linarith

/-! ### Per-dimension score bounds -/

theorem sPrice_unit {l : List SearchResultItem} {r : SearchResultItem} (hr : r ∈ l) :
    0 ≤ sPrice l r ∧ sPrice l r ≤ 1 := by
  have hm : r.total_price ∈ pricesOf l := List.mem_map_of_mem _ hr
  exact normMin_unit (pyMin_le_of_mem hm) (le_pyMax_of_mem hm)

theorem sTime_unit {l : List SearchResultItem} {r : SearchResultItem} (hr : r ∈ l) :
    0 ≤ sTime l r ∧ sTime l r ≤ 1 := by
  by_cases he : timesOf l = []
  · have hnone : r.delivery_time_min = none := by
      cases ht : r.delivery_time_min with
      | none => rfl
      | some t =>
        have hmem : ((t : ℚ)) ∈ timesOf l :=
          List.mem_filterMap.mpr ⟨r, hr, by rw [ht]; rfl⟩
        rw [he] at hmem
        simp at hmem
    unfold sTime tSubst timeMin timeMax
    rw [hnone]
    simp only [he, if_pos]
    norm_num [_normalise_min_is_best]
  · unfold sTime tSubst timeMin timeMax
    simp only [he, if_neg, ite_false]
    cases ht : r.delivery_time_min with
    | some t =>
      have hmem : ((t : ℚ)) ∈ timesOf l :=
        List.mem_filterMap.mpr ⟨r, hr, by rw [ht]; rfl⟩
      exact normMin_unit (pyMin_le_of_mem hmem) (le_pyMax_of_mem hmem)
    | none =>
      exact normMin_unit (pyMin_le_pyMax he) le_rfl

theorem sRating_unit {l : List SearchResultItem} {r : SearchResultItem} (hr : r ∈ l) :
    0 ≤ sRating l r ∧ sRating l r ≤ 1 := by
  by_cases he : ratingsOf l = []
  · have hnone : r.rating = none := by
      cases ht : r.rating with
      | none => rfl
      | some v =>
        have hmem : v ∈ ratingsOf l := List.mem_filterMap.mpr ⟨r, hr, ht⟩
        rw [he] at hmem
        simp at hmem
    unfold sRating rtSubst ratingMin ratingMax
    rw [hnone]
    simp only [he, if_pos]
    exact normMax_unit le_rfl (by norm_num)
  · unfold sRating rtSubst ratingMin ratingMax
    simp only [he, if_neg, ite_false]
    cases ht : r.rating with
    | some v =>
      have hmem : v ∈ ratingsOf l := List.mem_filterMap.mpr ⟨r, hr, ht⟩
      exact normMax_unit (pyMin_le_of_mem hmem) (le_pyMax_of_mem hmem)
    | none =>
      exact normMax_unit le_rfl (pyMin_le_pyMax he)

theorem sFees_unit {l : List SearchResultItem} {r : SearchResultItem} (hr : r ∈ l) :
    0 ≤ sFees l r ∧ sFees l r ≤ 1 := by
  have hm : feeOf r ∈ feesOf l := List.mem_map_of_mem _ hr
  have hne : feesOf l ≠ [] := by
    intro h
    rw [h] at hm
    simp at hm
  unfold sFees feeMin feeMax
  simp only [hne, if_neg, ite_false]
  exact normMin_unit (pyMin_le_of_mem hm) (le_pyMax_of_mem hm)

theorem scoreOf_bounds (cw : Option RankWeights) {l : List SearchResultItem}
    {r : SearchResultItem} (hr : r ∈ l)
    (h1 : 0 ≤ w_price cw) (h2 : 0 ≤ w_time cw) (h3 : 0 ≤ w_rating cw)
    (h4 : 0 ≤ w_fees cw) (h5 : 0 ≤ w_pref cw) :
    0 ≤ scoreOf cw l r ∧
      scoreOf cw l r ≤ w_price cw + w_time cw + w_rating cw + w_fees cw + w_pref cw := by
  obtain ⟨p0, p1⟩ := sPrice_unit hr
  obtain ⟨t0, t1⟩ := sTime_unit hr
  obtain ⟨g0, g1⟩ := sRating_unit hr
  obtain ⟨f0, f1⟩ := sFees_unit hr
  unfold scoreOf
  constructor
  · have e1 := mul_nonneg h1 p0
    have e2 := mul_nonneg h2 t0
    have e3 := mul_nonneg h3 g0
    have e4 := mul_nonneg h4 f0
    have e5 : (0:ℚ) ≤ w_pref cw * (1/2) := mul_nonneg h5 (by norm_num)
    linarith
  · have e1 := mul_le_of_le_one_right h1 p1
    have e2 := mul_le_of_le_one_right h2 t1
    have e3 := mul_le_of_le_one_right h3 g1
    have e4 := mul_le_of_le_one_right h4 f1
    have e5 : w_pref cw * (1/2) ≤ w_pref cw :=
      mul_le_of_le_one_right h5 (by norm_num)
    linarith

/-! ### `assignRanks` facts -/

theorem assignRanks_map_rank : ∀ (n : ℕ) (m : List SearchResultItem),
    (assignRanks n m).map SearchResultItem.rank
      = (List.range m.length).map (fun i => some (n + i))
  | _, [] => rfl
  | n, r :: rs => by
    simp only [assignRanks, List.map_cons, assignRanks_map_rank (n+1) rs,
      List.length_cons, List.range_succ_eq_map, List.map_map]
    refine congrArg₂ List.cons (by simp) ?_
    refine List.map_congr_left fun i _ => ?_
    simp only [Function.comp_apply]
    exact congrArg some (by omega)

theorem mem_assignRanks {x : SearchResultItem} :
    ∀ {n : ℕ} {m : List SearchResultItem}, x ∈ assignRanks n m →
      ∃ y ∈ m, ∃ k, n ≤ k ∧ x = { y with rank := some k }
  | n, [], h => by simp [assignRanks] at h
  | n, r :: rs, h => by
    rcases List.mem_cons.mp h with h1 | h2
    · exact ⟨r, List.mem_cons_self r rs, n, le_refl n, h1⟩
    · obtain ⟨y, hy, k, hk, he⟩ := mem_assignRanks h2
      exact ⟨y, List.mem_cons_of_mem r hy, k, by omega, he⟩

theorem scoreKey_map_assignRanks : ∀ (n : ℕ) (m : List SearchResultItem),
    (assignRanks n m).map scoreKey = m.map scoreKey
  | _, [] => rfl
  | n, r :: rs => by
    simp only [assignRanks, List.map_cons, scoreKey_map_assignRanks (n+1) rs]
    rfl

theorem clearComputed_map_assignRanks : ∀ (n : ℕ) (m : List SearchResultItem),
    (assignRanks n m).map clearComputed = m.map clearComputed
  | _, [] => rfl
  | n, r :: rs => by
    simp only [assignRanks, List.map_cons, clearComputed_map_assignRanks (n+1) rs]
    rfl

/-! ### Stability of the sort step -/

theorem filter_insertionSort_const_key (s : ℚ) (m : List SearchResultItem) :
    (List.insertionSort scoreGE m).filter (fun r => decide (scoreKey r = s))
      = m.filter (fun r => decide (scoreKey r = s)) := by
  have hmem : ∀ x ∈ m.filter (fun r => decide (scoreKey r = s)), scoreKey x = s :=
    fun x hx => of_decide_eq_true (List.mem_filter.mp hx).2
  have hpw : (m.filter (fun r => decide (scoreKey r = s))).Pairwise scoreGE :=
    List.pairwise_of_forall_mem_list fun a ha b hb => by
      show scoreKey b ≤ scoreKey a
      rw [hmem a ha, hmem b hb]
  have h1 : (m.filter (fun r => decide (scoreKey r = s))).Sublist
      (List.insertionSort scoreGE m) :=
    List.sublist_insertionSort hpw (List.filter_sublist m)
  have h2 : (m.filter (fun r => decide (scoreKey r = s))).filter
      (fun r => decide (scoreKey r = s)) = m.filter (fun r => decide (scoreKey r = s)) :=
    List.filter_eq_self.mpr fun a ha => (List.mem_filter.mp ha).2
  have h3 : (m.filter (fun r => decide (scoreKey r = s))).Sublist
      ((List.insertionSort scoreGE m).filter (fun r => decide (scoreKey r = s))) := by
    have hs := List.Sublist.filter (fun r => decide (scoreKey r = s)) h1
    rwa [h2] at hs
  have h4 : ((List.insertionSort scoreGE m).filter (fun r => decide (scoreKey r = s))).Perm
      (m.filter (fun r => decide (scoreKey r = s))) :=
    (List.perm_insertionSort scoreGE m).filter _
  exact (h3.eq_of_length h4.length_eq.symm).symm

theorem filter_map_eraseRank_assignRanks (s : ℚ) : ∀ (n : ℕ) (m : List SearchResultItem),
    ((assignRanks n m).filter (fun r => decide (scoreKey r = s))).map eraseRank
      = (m.filter (fun r => decide (scoreKey r = s))).map eraseRank
  | _, [] => rfl
  | n, r :: rs => by
    have ih := filter_map_eraseRank_assignRanks s (n+1) rs
    show ((({ r with rank := some n }) :: assignRanks (n+1) rs).filter
        (fun r0 => decide (scoreKey r0 = s))).map eraseRank
      = ((r :: rs).filter (fun r0 => decide (scoreKey r0 = s))).map eraseRank
    rw [List.filter_cons, List.filter_cons]
    have hk : (decide (scoreKey { r with rank := some n } = s))
        = (decide (scoreKey r = s)) := rfl
    rw [hk]
    cases hd : decide (scoreKey r = s) with
    | false => simpa using ih
    | true =>
      have he : eraseRank { r with rank := some n } = eraseRank r := rfl
      simp only [hd, ite_true, List.map_cons, he, ih]

/-! ### Claim theorems about the ranking engine -/

/-- C9: if no offer in a non-empty candidate set carries a delivery time, the
time range defaults to `(0, 1)`, every offer's substituted time value is the
default maximum `1`, and every offer's time-normalised component is `0` —
not the `1.0` that the degenerate `min == max` branch of
`_normalise_min_is_best` would give. -/
theorem ranking_no_times_component_zero (l : List SearchResultItem) (_hne : l ≠ [])
    (hall : ∀ r ∈ l, r.delivery_time_min = none) :
    timesOf l = [] ∧ timeMin l = 0 ∧ timeMax l = 1
      ∧ ∀ r ∈ l, tSubst l r = 1 ∧ sTime l r = 0 := by
  have ht : timesOf l = [] :=
    List.filterMap_eq_nil_iff.mpr fun r hr => by rw [hall r hr]; rfl
  refine ⟨ht, by simp [timeMin, ht], by simp [timeMax, ht], fun r hr => ?_⟩
  have h1 : tSubst l r = 1 := by
    unfold tSubst
    rw [hall r hr]
    simp [timeMax, ht]
  refine ⟨h1, ?_⟩
  unfold sTime
  rw [h1]
  simp [timeMin, timeMax, ht, _normalise_min_is_best]

/-- Closed instance of `ranking_no_times_component_zero` at a concrete offer. -/
theorem ranking_no_times_component_zero_witness :
    timesOf [oSoup] = [] ∧ timeMin [oSoup] = 0 ∧ timeMax [oSoup] = 1
      ∧ (tSubst [oSoup] oSoup = 1 ∧ sTime [oSoup] oSoup = 0) := by
  have h := ranking_no_times_component_zero [oSoup] (by decide) (by decide)
  exact ⟨h.1, h.2.1, h.2.2.1, h.2.2.2 oSoup (List.mem_singleton.mpr rfl)⟩

/-- C10: ranking writes only `value_score`, `rank` and `savings_vs_max`:
with those three fields blanked, the output is a permutation of the input
(so the returned list holds exactly the input offers), and every returned
offer agrees with some input offer on all remaining fields. -/
theorem rank_results_frame (l : List SearchResultItem) (cw : Option RankWeights) :
    ((rank_results l cw).map clearComputed).Perm (l.map clearComputed)
      ∧ ∀ r ∈ rank_results l cw, ∃ r0 ∈ l, clearComputed r = clearComputed r0 := by
  have hperm : ((rank_results l cw).map clearComputed).Perm (l.map clearComputed) := by
    by_cases hne : l = []
    · subst hne
      simp [rank_results]
    · have hrw : rank_results l cw
          = assignRanks 1 (List.insertionSort scoreGE (scoredList cw l)) := by
        unfold rank_results
        rw [if_neg hne]
      rw [hrw, clearComputed_map_assignRanks]
      refine ((List.perm_insertionSort scoreGE (scoredList cw l)).map clearComputed).trans ?_
      have he : List.map clearComputed (scoredList cw l) = List.map clearComputed l := by
        unfold scoredList
        rw [List.map_map]
        exact List.map_congr_left fun x _ => rfl
      rw [he]
  refine ⟨hperm, fun r hr => ?_⟩
  have hm : clearComputed r ∈ (rank_results l cw).map clearComputed :=
    List.mem_map_of_mem _ hr
  obtain ⟨r0, hr0, heq⟩ := List.mem_map.mp (hperm.mem_iff.mp hm)
  exact ⟨r0, hr0, heq.symm⟩

/-- C8: ranking orders offers descending by `value_score` (the sort key is
`value_score or 0`), and offers with equal key keep the relative order they
had when they entered the sort (Python's stable sort, modelled by the stable
`List.insertionSort`): for every key value `s`, the rank-erased sub-sequence
of ties equals the corresponding sub-sequence of the scored input. -/
theorem rank_results_sorted_stable (l : List SearchResultItem) (cw : Option RankWeights) :
    List.Pairwise (fun a b => scoreKey b ≤ scoreKey a) (rank_results l cw)
      ∧ ∀ s : ℚ,
        ((rank_results l cw).filter (fun r => decide (scoreKey r = s))).map eraseRank
          = ((scoredList cw l).filter (fun r => decide (scoreKey r = s))).map eraseRank := by
  by_cases hne : l = []
  · subst hne
    refine ⟨by simp [rank_results], fun s => ?_⟩
    simp [rank_results, scoredList]
  · have hrw : rank_results l cw
        = assignRanks 1 (List.insertionSort scoreGE (scoredList cw l)) := by
      unfold rank_results
      rw [if_neg hne]
    constructor
    · rw [hrw]
      have hs : List.Pairwise scoreGE (List.insertionSort scoreGE (scoredList cw l)) :=
        List.sorted_insertionSort scoreGE (scoredList cw l)
      have h1 : List.Pairwise (fun x y : ℚ => y ≤ x)
          ((List.insertionSort scoreGE (scoredList cw l)).map scoreKey) :=
        List.pairwise_map.mpr hs
      rw [← scoreKey_map_assignRanks 1] at h1
      exact List.pairwise_map.mp h1
    · intro s
      rw [hrw, filter_map_eraseRank_assignRanks, filter_insertionSort_const_key]

/-- C5 (amended): for a nonempty input and non-negative effective weights,
after ranking (i) the rank fields are exactly `some 1 .. some N` in list
order (a permutation `{1..N}`), (ii) the rank-1 offer has the maximal
`value_score`, and (iii) every `value_score` `v` satisfies
`0 ≤ v ≤ Σweights + 1/20000`: because the score is rounded to 4 decimal
places after weighting, it can exceed the weight sum by up to half of
`10⁻⁴` (see the counterexample for the original `v ≤ Σweights` bound). -/
theorem rank_results_ranks_and_bounds
    (l : List SearchResultItem) (cw : Option RankWeights) (hne : l ≠ [])
    (h1 : 0 ≤ w_price cw) (h2 : 0 ≤ w_time cw) (h3 : 0 ≤ w_rating cw)
    (h4 : 0 ≤ w_fees cw) (h5 : 0 ≤ w_pref cw) :
    (rank_results l cw).map SearchResultItem.rank
        = (List.range l.length).map (fun i => some (i + 1))
      ∧ (∀ r1 ∈ rank_results l cw, r1.rank = some 1 →
          ∀ r ∈ rank_results l cw, scoreKey r ≤ scoreKey r1)
      ∧ (∀ r ∈ rank_results l cw, ∃ v, r.value_score = some v ∧ 0 ≤ v
          ∧ v ≤ w_price cw + w_time cw + w_rating cw + w_fees cw + w_pref cw + 1/20000) := by
  have hrw : rank_results l cw
      = assignRanks 1 (List.insertionSort scoreGE (scoredList cw l)) := by
    unfold rank_results
    rw [if_neg hne]
  refine ⟨?_, ?_, ?_⟩
  · rw [hrw, assignRanks_map_rank, List.length_insertionSort]
    simp only [scoredList, List.length_map]
    exact List.map_congr_left fun i _ => congrArg some (Nat.add_comm 1 i)
  · intro r1 hr1 hrk r hr
    rw [hrw] at hr1 hr
    have hs := List.sorted_insertionSort scoreGE (scoredList cw l)
    cases hsrt : List.insertionSort scoreGE (scoredList cw l) with
    | nil =>
      rw [hsrt] at hr1
      simp [assignRanks] at hr1
    | cons x rest =>
      rw [hsrt] at hr1 hr hs
      simp only [assignRanks, List.mem_cons] at hr1 hr
      have hr1x : r1 = { x with rank := some 1 } := by
        rcases hr1 with h | h
        · exact h
        · obtain ⟨y, hy, k, hk, he⟩ := mem_assignRanks h
          rw [he] at hrk
          simp at hrk
          omega
      have hkey1 : scoreKey r1 = scoreKey x := by rw [hr1x]; rfl
      rcases hr with h | h
      · rw [h, hkey1]
        exact le_rfl
      · obtain ⟨y, hy, k, hk, he⟩ := mem_assignRanks h
        have hrel : scoreGE x y := List.rel_of_sorted_cons hs y hy
        rw [he, hkey1]
        exact hrel
  · intro r hr
    rw [hrw] at hr
    obtain ⟨y, hy, k, hk, he⟩ := mem_assignRanks hr
    have hy2 : y ∈ scoredList cw l := (List.mem_insertionSort scoreGE).mp hy
    obtain ⟨z, hz, hze⟩ := List.mem_map.mp hy2
    obtain ⟨b0, b1⟩ := scoreOf_bounds cw hz h1 h2 h3 h4 h5
    refine ⟨round4 (scoreOf cw l z), ?_, round4_nonneg b0,
      le_trans (round4_le _) (by linarith)⟩
    rw [he, ← hze]
    rfl

/-- Closed instance of `rank_results_ranks_and_bounds` at a one-offer list
with the default weights: the single offer gets rank 1. -/
theorem rank_results_ranks_and_bounds_witness :
    (rank_results [oPadThai] none).map SearchResultItem.rank = [some 1] :=
  ((rank_results_ranks_and_bounds [oPadThai] none (by decide) (by decide) (by decide)
    (by decide) (by decide) (by decide)).1).trans (by decide)

/-- C5 counterexample: with the non-negative custom weights `cwNarrow`
(price weight `0.123456`, all others `0`), the single ranked offer's
`value_score` is `0.1235`, which exceeds the weight sum `0.123456`: the
claimed bound `value_score ≤ Σweights` fails once the 4-decimal rounding of
the score is taken into account. -/
theorem rank_results_value_bound_cex :
    (0 ≤ w_price (some cwNarrow) ∧ 0 ≤ w_time (some cwNarrow)
        ∧ 0 ≤ w_rating (some cwNarrow) ∧ 0 ≤ w_fees (some cwNarrow)
        ∧ 0 ≤ w_pref (some cwNarrow))
      ∧ ∃ r ∈ rank_results [oUnit] (some cwNarrow),
          ¬ (scoreKey r ≤ w_price (some cwNarrow) + w_time (some cwNarrow)
              + w_rating (some cwNarrow) + w_fees (some cwNarrow)
              + w_pref (some cwNarrow)) := by
  have hw1 : w_price (some cwNarrow) = mkRat 123456 1000000 := rfl
  have hw2 : w_time (some cwNarrow) = 0 := rfl
  have hw3 : w_rating (some cwNarrow) = 0 := rfl
  have hw4 : w_fees (some cwNarrow) = 0 := rfl
  have hw5 : w_pref (some cwNarrow) = 0 := rfl
  constructor
  · refine ⟨?_, ?_, ?_, ?_, ?_⟩ <;> decide
  · have hsp : sPrice [oUnit] oUnit = 1 := by
      norm_num [sPrice, pricesOf, oUnit, priceMin, priceMax, pyMin, pyMax,
        _normalise_min_is_best]
    have hst : sTime [oUnit] oUnit = 0 := by
      norm_num [sTime, tSubst, timesOf, oUnit, timeMin, timeMax, pyMin, pyMax,
        _normalise_min_is_best]
    have hsr : sRating [oUnit] oUnit = 0 := by
      norm_num [sRating, rtSubst, ratingsOf, oUnit, ratingMin, ratingMax,
        _normalise_max_is_best]
    have hsf : sFees [oUnit] oUnit = 1 := by
      norm_num [sFees, feeOf, feesOf, oUnit, feeMin, feeMax, pyMin, pyMax,
        _normalise_min_is_best]
    have hscore : scoreOf (some cwNarrow) [oUnit] oUnit = mkRat 123456 1000000 := by
      unfold scoreOf
      rw [hsp, hst, hsr, hsf, hw1, hw2, hw3, hw4, hw5]
      norm_num
    have hfl : (⌊(mkRat 123456 1000000 * 10000 : ℚ)⌋ : ℤ) = 1234 := by
      norm_num [Rat.mkRat_eq_div, Int.floor_eq_iff]
    have hr4 : round4 (mkRat 123456 1000000) = mkRat 1235 10000 := by
      unfold round4 roundHalfEven
      rw [hfl]
      rw [if_neg (by norm_num [Rat.mkRat_eq_div]), if_pos (by norm_num [Rat.mkRat_eq_div])]
      norm_num [Rat.mkRat_eq_div]
    have hrr : rank_results [oUnit] (some cwNarrow)
        = [{ scoreAssign (some cwNarrow) [oUnit] oUnit with rank := some 1 }] := by
      unfold rank_results
      rw [if_neg (by decide : ¬([oUnit] = []))]
      unfold scoredList
      simp [List.insertionSort, List.orderedInsert, assignRanks]
    refine ⟨{ scoreAssign (some cwNarrow) [oUnit] oUnit with rank := some 1 },
      by rw [hrr]; exact List.mem_singleton.mpr rfl, ?_⟩
    have hkey : scoreKey { scoreAssign (some cwNarrow) [oUnit] oUnit with rank := some 1 }
        = round4 (scoreOf (some cwNarrow) [oUnit] oUnit) := rfl
    rw [hkey, hscore, hr4, hw1, hw2, hw3, hw4, hw5]
    norm_num [Rat.mkRat_eq_div]

/-! ### Discount engine facts -/

theorem roundHalfEven_intCast (z : ℤ) : roundHalfEven (z : ℚ) = z := by
  unfold roundHalfEven
  dsimp only
  rw [Int.floor_intCast]
  rw [if_pos (by norm_num : (z:ℚ) - (z:ℚ) < 1/2)]

theorem round2_eq_self {q : ℚ} {z : ℤ} (h : q * 100 = (z : ℚ)) : round2 q = q := by
  unfold round2
  rw [h, roundHalfEven_intCast, ← h]
  field_simp

theorem applyOneDeal_sync (d : DealRead) (r : SearchResultItem)
    (h : ∀ fb, r.fees_breakdown = some fb → r.total_price = fb.total) :
    ∀ fb', (applyOneDeal d r).fees_breakdown = some fb' →
      (applyOneDeal d r).total_price = fb'.total := by
  intro fb' hfb
  unfold applyOneDeal at hfb ⊢
  dsimp only at hfb ⊢
  split at hfb
  · rename_i hskip
    rw [if_pos hskip]
    exact h fb' hfb
  · rename_i hskip
    rw [if_neg hskip]
    split at hfb
    · rename_i hpos
      rw [if_pos hpos]
      cases hr : r.fees_breakdown with
      | none =>
        rw [hr] at hfb
        simp at hfb
      | some fb =>
        rw [hr] at hfb
        simp only [Option.some.injEq] at hfb
        rw [← hfb]
    · rename_i hpos
      rw [if_neg hpos]
      exact h fb' hfb

theorem foldl_applyOne_sync (ds : List DealRead) (r : SearchResultItem)
    (h : ∀ fb, r.fees_breakdown = some fb → r.total_price = fb.total) :
    ∀ fb', ((ds.foldl (fun r0 d => applyOneDeal d r0) r).fees_breakdown = some fb') →
      (ds.foldl (fun r0 d => applyOneDeal d r0) r).total_price = fb'.total := by
  induction ds generalizing r with
  | nil => exact h
  | cons d ds ih => exact ih (applyOneDeal d r) (applyOneDeal_sync d r h)

/-- C4 (amended): `apply_deals` preserves the invariant
`total_price == fees_breakdown.total` for every offer that enters with a
breakdown in sync; but the other half of the claim — `total_price >= 0` — is
false on the code: a fixed `discount_amount` is not clamped to the offer
total (see the counterexample, which drives the total to `-5`). -/
theorem apply_deals_fee_sync (results : List SearchResultItem) (deals : List DealRead)
    (hsync : ∀ r ∈ results, ∀ fb, r.fees_breakdown = some fb → r.total_price = fb.total) :
    ∀ r' ∈ apply_deals results deals, ∀ fb', r'.fees_breakdown = some fb' →
      r'.total_price = fb'.total := by
  intro r' hr' fb' hfb
  obtain ⟨r, hr, hre⟩ := List.mem_map.mp hr'
  subst hre
  exact foldl_applyOne_sync _ r (hsync r hr) fb' hfb

/-- Closed instance of `apply_deals_fee_sync` on a synced offer and the repo
sample deal `DASH5` (skipped by its minimum order, so the offer is
unchanged). -/
theorem apply_deals_fee_sync_witness :
    (applyDealsToResult [dDash5] oTwenty).total_price
      = ({ base_price := 20, total := 20 } : PriceBreakdown).total :=
  apply_deals_fee_sync [oTwenty] [dDash5]
    (by
      intro r hr fb hfb
      rw [List.mem_singleton.mp hr] at hfb ⊢
      simp only [oTwenty] at hfb ⊢
      injection hfb with hfb
      rw [← hfb])
    (applyDealsToResult [dDash5] oTwenty) (by decide)
    ({ base_price := 20, total := 20 } : PriceBreakdown) (by decide)

/-- C4 counterexample: the repo deal `RIDE10` ($10 off, no minimum order)
applied to an offer with `total_price = 5` leaves `total_price = -5 < 0` —
no clamp to the offer total exists in `apply_deals`. -/
theorem apply_deals_negative_total_cex :
    ∃ r ∈ apply_deals [oCheap] [dRide10], ¬ (0 ≤ r.total_price) := by
  have e1 : round2 (10:ℚ) = 10 := round2_eq_self (z := 1000) (by norm_num)
  have e2 : round2 ((5:ℚ) - 10) = 5 - 10 := round2_eq_self (z := -500) (by norm_num)
  have hpd : applyDealsToResult [dRide10] oCheap = applyOneDeal dRide10 oCheap := by
    simp +decide [applyDealsToResult, platformDeals, dRide10, oCheap]
  have happ : (applyOneDeal dRide10 oCheap).total_price = round2 ((5:ℚ) - 10) := by
    simp +decide [applyOneDeal, rawDiscount, dRide10, oCheap, truthy, e1]
  refine ⟨applyDealsToResult [dRide10] oCheap, by simp [apply_deals], ?_⟩
  rw [hpd, happ, e2]
  norm_num

/-- C6: the repo deal `EAT20OFF` (20% off, `max_discount = 10`) applied to an
offer with `total_price = 40` yields `min(8, 10) = 8` off, a new total of 32,
and exactly one label appended; and the repo deal `DASH5` (`min_order = 25`)
applied to an offer with `total_price = 20` leaves the offer unchanged with
no label appended. -/
theorem apply_deals_clamp_and_min_order :
    ((apply_deals [oForty] [dEat20]).map SearchResultItem.total_price = [32]
      ∧ (apply_deals [oForty] [dEat20]).map (fun r => r.deals_applied.length) = [1])
      ∧ apply_deals [oTwenty] [dDash5] = [oTwenty] := by
  have em : min ((40:ℚ) * (20/100)) 10 = 8 := by norm_num
  have er : round2 (8:ℚ) = 8 := round2_eq_self (z := 800) (by norm_num)
  have er2 : round2 ((40:ℚ) - 8) = 32 := by
    have h := round2_eq_self (q := (40:ℚ) - 8) (z := 3200) (by norm_num)
    rw [h]
    norm_num
  have hpd : applyDealsToResult [dEat20] oForty = applyOneDeal dEat20 oForty := by
    simp +decide [applyDealsToResult, platformDeals, dEat20, oForty]
  have happ : (applyOneDeal dEat20 oForty).total_price = 32
      ∧ (applyOneDeal dEat20 oForty).deals_applied.length = 1 := by
    simp +decide [applyOneDeal, rawDiscount, dEat20, oForty, truthy, em, er, er2]
  refine ⟨⟨?_, ?_⟩, ?_⟩
  · show [(applyDealsToResult [dEat20] oForty).total_price] = [32]
    rw [hpd, happ.1]
  · show [(applyDealsToResult [dEat20] oForty).deals_applied.length] = [1]
    rw [hpd, happ.2]
  · decide

/-! ### Claim theorems about the intent parser -/

/-- C7: parsing `"Find me the cheapest sushi delivery under $15"` yields
category `FOOD` (keyword hits `sushi` and `delivery` beat `cheapest`'s single
product hit), subject `"sushi delivery"` (filler prefix `Find me the `,
trailing `under ...` clause and leading superlative `cheapest` stripped), and
budget `15`; and whenever the cleaning pipeline leaves an empty string, the
subject falls back to the original query. -/
theorem parse_sushi_query_and_empty_fallback :
    (parse_user_query "Find me the cheapest sushi delivery under $15").category
        = SearchCategory.FOOD
      ∧ (parse_user_query "Find me the cheapest sushi delivery under $15").item
        = "sushi delivery"
      ∧ (parse_user_query "Find me the cheapest sushi delivery under $15").budget
        = some 15
      ∧ ∀ (q : String) (c : SearchCategory), cleanedItem q.data = [] →
          _extract_item q c = q := by
  refine ⟨by decide, by decide, by decide, ?_⟩
  intro q c h
  simp [_extract_item, h]

/-- Closed instance of the fallback clause of
`parse_sushi_query_and_empty_fallback`: the query `"compare "` cleans to the
empty string (it is all filler), so the subject falls back to the query. -/
theorem parse_sushi_query_and_empty_fallback_witness :
    _extract_item "compare " SearchCategory.PRODUCT = "compare " :=
  parse_sushi_query_and_empty_fallback.2.2.2 "compare " SearchCategory.PRODUCT (by decide)

/-! ### Claim theorems about the search stage and pipeline -/

/-- C1 counterexample: with `budget_max = 15` present, the food and ride
search stages return offers whose `total_price` exceeds 15 (their `search`
methods never read `budget_max`); the budget filter exists only in the
product and hotel agents. -/
theorem budget_filter_cex :
    filtersB15.budget_max = some 15
      ∧ (∃ r ∈ foodSearch [Except.ok [rawPricySushi]] filtersB15,
          ¬ (r.total_price ≤ 15))
      ∧ (∃ r ∈ rideSearch [Except.ok [rawPricyRide]] filtersB15,
          ¬ (r.total_price ≤ 15)) := by
  have ef : round2 ((20:ℚ) + 0 + 0 + 0) = 20 := by
    have h := round2_eq_self (q := (20:ℚ) + 0 + 0 + 0) (z := 2000) (by norm_num)
    rw [h]
    norm_num
  have er : round2 ((18:ℚ) + 0 + 0) = 18 := by
    have h := round2_eq_self (q := (18:ℚ) + 0 + 0) (z := 1800) (by norm_num)
    rw [h]
    norm_num
  refine ⟨by decide, ?_, ?_⟩
  · refine ⟨foodNormalise rawPricySushi filtersB15, ?_, ?_⟩
    · simp [foodSearch, okList]
    · have htp : (foodNormalise rawPricySushi filtersB15).total_price
          = round2 ((20:ℚ) + 0 + 0 + 0) := rfl
      rw [htp, ef]
      norm_num
  · refine ⟨rideNormalise rawPricyRide, ?_, ?_⟩
    · simp [rideSearch, okList]
    · have htp : (rideNormalise rawPricyRide).total_price
          = round2 ((18:ℚ) + 0 + 0) := rfl
      rw [htp, er]
      norm_num

/-- C1 (amended): the post-filter budget guarantee holds for the product and
hotel search stages — with a truthy `budget_max = b`, every returned offer
satisfies `total_price ≤ b` — but not for the food and ride stages, which
never apply the budget filter (see the counterexample). -/
theorem budget_filter_product_and_hotel
    (responsesP : List (Except String (List RawProduct)))
    (responsesH : List (Except String (List RawHotel)))
    (f : Filters) (b : ℚ) (hb : f.budget_max = some b) (hb0 : b ≠ 0) :
    (∀ r ∈ ecommerceSearch responsesP f, r.total_price ≤ b)
      ∧ (∀ r ∈ hotelSearch responsesH f, r.total_price ≤ b) := by
  constructor
  · intro r hr
    simp only [ecommerceSearch, hb] at hr
    rw [if_pos hb0] at hr
    exact of_decide_eq_true (List.mem_filter.mp hr).2
  · intro r hr
    simp only [hotelSearch, hb] at hr
    rw [if_pos hb0] at hr
    exact of_decide_eq_true (List.mem_filter.mp hr).2

/-- Closed instance of `budget_filter_product_and_hotel` at `budget_max = 15`
with one in-budget product response: its normalised offer passes the filter
and is indeed within budget. -/
theorem budget_filter_product_and_hotel_witness :
    (ecommerceNormalise rawBook).total_price ≤ 15 := by
  have htp : (ecommerceNormalise rawBook).total_price = round2 ((10:ℚ) + 0 + 0) := rfl
  have e : round2 ((10:ℚ) + 0 + 0) = 10 := by
    have h0 := round2_eq_self (q := (10:ℚ) + 0 + 0) (z := 1000) (by norm_num)
    rw [h0]
    norm_num
  have hmem : ecommerceNormalise rawBook ∈ ecommerceSearch [Except.ok [rawBook]] filtersB15 := by
    show ecommerceNormalise rawBook ∈
      (if (15:ℚ) ≠ 0 then
        ([ecommerceNormalise rawBook]).filter (fun r => decide (r.total_price ≤ 15))
      else [ecommerceNormalise rawBook])
    rw [if_pos (by norm_num : (15:ℚ) ≠ 0)]
    refine List.mem_filter.mpr ⟨List.mem_singleton.mpr rfl, ?_⟩
    refine decide_eq_true ?_
    rw [htp, e]
    norm_num
  exact (budget_filter_product_and_hotel [Except.ok [rawBook]] [] filtersB15 15
    (by decide) (by decide)).1 (ecommerceNormalise rawBook) hmem

/-- C2 counterexample: when the search stage raises (one recorded error, zero
offers), the pipeline still finishes with `status = COMPLETED`, not
`PARTIAL`: the final node sets `COMPLETED` unconditionally. -/
theorem pipeline_completed_despite_error_cex :
    (run_pipeline { searchOutcome := fun _ _ => Except.error "boom" }
        (create_initial_state "pizza" none none none none none)).errors
      = ["Search failed: boom"]
    ∧ (run_pipeline { searchOutcome := fun _ _ => Except.error "boom" }
        (create_initial_state "pizza" none none none none none)).ranked_results = []
    ∧ (run_pipeline { searchOutcome := fun _ _ => Except.error "boom" }
        (create_initial_state "pizza" none none none none none)).status
      = SearchStatus.COMPLETED
    ∧ SearchStatus.COMPLETED ≠ SearchStatus.PARTIAL := by
  refine ⟨by decide, by decide, rfl, by decide⟩

/-- C2 (amended): once the pipeline reaches the apply-and-rank stage, the
status is set to `COMPLETED` unconditionally — recorded errors never yield
`PARTIAL`; the whole workflow and the response inherit that status. -/
theorem pipeline_status_always_completed
    (env : PipelineEnv) (st : AgentState) (query : String)
    (user_id : Option String) (filters : Option Filters)
    (location : Option String) (budget_max : Option ℚ)
    (platforms : Option (List String)) :
    (apply_deals_and_rank_node st).status = SearchStatus.COMPLETED
      ∧ (run_pipeline env st).status = SearchStatus.COMPLETED
      ∧ (execute_search env query user_id filters location budget_max
          platforms).status = SearchStatus.COMPLETED :=
  ⟨rfl, rfl, rfl⟩

/-- C3 (amended): a platform adapter that raises contributes zero offers and
the sibling adapters' offers are still returned (dropping the exception from
the gathered responses changes nothing); and when the category agent itself
returns normally, the search stage records no error and appends exactly the
returned offers — so per-adapter failures inside the agent are swallowed
without any recorded message (see the counterexample). -/
theorem food_adapter_isolation
    (xs ys : List (Except String (List RawFood))) (e : String) (f : Filters)
    (responses : String → Filters → List (Except String (List RawFood)))
    (st : AgentState) (c : SearchCategory) (i : ParsedIntent)
    (hc : st.category = some c) (hi : st.intent = some i) :
    foodSearch (xs ++ Except.error e :: ys) f = foodSearch (xs ++ ys) f
      ∧ (search_node
          { searchOutcome := fun it fl => Except.ok (foodSearch (responses it fl) fl) }
          st).errors = st.errors
      ∧ (search_node
          { searchOutcome := fun it fl => Except.ok (foodSearch (responses it fl) fl) }
          st).results
        = st.results
            ++ foodSearch (responses i.item (merged_filters st i))
                (merged_filters st i) := by
  refine ⟨?_, ?_, ?_⟩
  · unfold foodSearch
    simp [List.filterMap_append, okList]
  · unfold search_node
    rw [hc, hi]
  · unfold search_node
    rw [hc, hi]

/-- Closed instance of `food_adapter_isolation` on a parsed state and a
single failing adapter. -/
theorem food_adapter_isolation_witness :
    foodSearch ([] ++ Except.error "boom" :: [Except.ok []]) {}
        = foodSearch ([] ++ [Except.ok []]) {}
      ∧ (search_node
          { searchOutcome := fun it fl =>
              Except.ok (foodSearch ((fun _ _ => []) it fl) fl) }
          stParsed).errors = stParsed.errors
      ∧ (search_node
          { searchOutcome := fun it fl =>
              Except.ok (foodSearch ((fun _ _ => []) it fl) fl) }
          stParsed).results
        = stParsed.results
            ++ foodSearch
                ((fun _ _ => ([] : List (Except String (List RawFood))))
                  ({ category := .FOOD, item := "sushi",
                     filters := ({} : Filters) } : ParsedIntent).item
                  (merged_filters stParsed
                    { category := .FOOD, item := "sushi", filters := ({} : Filters) }))
                (merged_filters stParsed
                  { category := .FOOD, item := "sushi", filters := ({} : Filters) }) :=
  food_adapter_isolation [] [Except.ok []] "boom" {} (fun _ _ => []) stParsed
    SearchCategory.FOOD
    { category := .FOOD, item := "sushi", filters := ({} : Filters) }
    (by decide) (by decide)

/-- C3 counterexample: three gathered responses is not needed — with one
failing adapter and one sibling returning an offer, the sibling's offer is
returned (result count 1) but the pipeline's error list stays empty: there is
no recorded message for the failed adapter, not "exactly one". -/
theorem adapter_error_not_recorded_cex :
    (foodSearch [Except.error "adapter down", Except.ok [rawPricySushi]] {}).length = 1
      ∧ (run_pipeline
          { searchOutcome := fun _ fl =>
              Except.ok
                (foodSearch [Except.error "adapter down", Except.ok [rawPricySushi]] fl) }
          (create_initial_state "pizza" none none none none none)).errors = []
      ∧ (run_pipeline
          { searchOutcome := fun _ fl =>
              Except.ok
                (foodSearch [Except.error "adapter down", Except.ok [rawPricySushi]] fl) }
          (create_initial_state "pizza" none none none none none)).results.length = 1 := by
  refine ⟨by decide, by decide, by decide⟩
